import Mathlib

/-!
# Verification of the Antikythera simulation core

A shallow embedding, over the rationals, of the simulation time/state model of
the `digital-antikythera-mechanism` repository (files `ancient_simulation.py`,
`modern_simulation.py`, `ancient_drawing.py`, `modern_drawing.py`,
`ancient_back_face.py`, `ancient_recorder.py`, `modern_recorder.py`), together
with theorems settling the specification's claims about it.

Python floats are modelled as rationals; Python's floored `%` on numbers and
truncating `int()` conversion are embedded explicitly.  Every angle the code
stores in radians is an exact rational multiple of `math.pi`, so angles are
represented throughout by their rational coefficient of pi (a full turn is the
coefficient `2`, the code's `2 * math.pi`).
-/

namespace Antikythera

/-- Python's `%` on numbers: floored modulo, `a - p * floor (a / p)`.
For a positive modulus the result lies in `[0, p)` even for negative `a`. -/
def pyMod (a p : ℚ) : ℚ := a - p * ⌊a / p⌋

/-- Python's `int()` on a number: truncation toward zero. -/
def pyInt (q : ℚ) : ℤ := if q < 0 then -⌊-q⌋ else ⌊q⌋

/-- Cycle progress as the code computes it, e.g. `current_day % 354 / 354` at
`ancient_drawing.py:87`: the floored remainder divided by the period. -/
def progress (elapsedDays periodDays : ℚ) : ℚ :=
  pyMod elapsedDays periodDays / periodDays

lemma pyInt_of_nonneg {q : ℚ} (h : 0 ≤ q) : pyInt q = ⌊q⌋ := by
  simp [pyInt, not_lt.mpr h]

lemma progress_eq_fract (e : ℚ) {p : ℚ} (hp : p ≠ 0) :
    progress e p = Int.fract (e / p) := by
  unfold progress pyMod Int.fract
  field_simp

/-- C4: for every `elapsedDays` (negative values included) and every period
`P > 0`, the cycle progress `(elapsedDays mod P) / P` computed with Python's
floored modulo lies in `[0, 1)`, and it is periodic with period `P`. -/
theorem cycle_progress_in_unit_interval_and_periodic
    (e : ℚ) {p : ℚ} (hp : 0 < p) :
    0 ≤ progress e p ∧ progress e p < 1 ∧
      progress (e + p) p = progress e p := by
  have hp' : p ≠ 0 := ne_of_gt hp
  rw [progress_eq_fract e hp', progress_eq_fract (e + p) hp']
  refine ⟨Int.fract_nonneg _, Int.fract_lt_one _, ?_⟩
  have hdiv : (e + p) / p = e / p + 1 := by
    field_simp
  rw [hdiv]
  exact Int.fract_add_one _

/-- Witness for C4 at the concrete input `elapsedDays = -1`, `P = 354`
(the Egyptian-calendar dial period): a negative day count still yields a
progress value in `[0, 1)` and one full period later the progress repeats. -/
theorem cycle_progress_in_unit_interval_and_periodic_witness :
    0 ≤ progress (-1) 354 ∧ progress (-1) 354 < 1 ∧
      progress (-1 + 354) 354 = progress (-1) 354 :=
  cycle_progress_in_unit_interval_and_periodic (-1) (by norm_num)

/-! ## Moon-phase display (`ancient_drawing.py:95-131`, `modern_drawing.py:49-82`) -/

/-- `MOON_PHASE_NAMES` of `ancient_config.py`. -/
def ANCIENT_MOON_PHASE_NAMES : List String :=
  ["New", "Waxing Crescent", "First Quarter", "Waxing Gibbous",
   "Full", "Waning Gibbous", "Last Quarter", "Waning Crescent"]

/-- `MOON_PHASE_NAMES` of `modern_config.py`. -/
def MODERN_MOON_PHASE_NAMES : List String :=
  ["New Moon", "Waxing Crescent", "First Quarter", "Waxing Gibbous",
   "Full Moon", "Waning Gibbous", "Last Quarter", "Waning Crescent"]

/-- `phase_index = int((phase * 8 + 0.5)) % 8`
(`ancient_drawing.py:125`, `modern_drawing.py:76`). -/
def phase_index (phase : ℚ) : ℤ := pyInt (phase * 8 + 1/2) % 8

/-- `current_phase_name = names[phase_index]`
(`ancient_drawing.py:126`, `modern_drawing.py:77`), with the 8-name table as a
parameter since the two variants use different tables. -/
def moonPhaseName (names : List String) (phase : ℚ) : Option String :=
  names.get? (phase_index phase).toNat

/-- `lit_radius` of the moon display (`ancient_drawing.py:110-116`,
`modern_drawing.py:65-69`): grows from `0` to `moon_radius` while the phase is
waxing (`phase < 0.5`) and shrinks back while it is waning. -/
def lit_radius (phase moon_radius : ℚ) : ℚ :=
  if phase < 1/2 then phase / (1/2) * moon_radius
  else (1 - (phase - 1/2) / (1/2)) * moon_radius

/-- C1: for a phase in `[0, 1)` the phase-name bucket index is
`floor (phase * 8 + 0.5) mod 8` (buckets centered on the named phases); phase
`0` and all phases below `0.0625` land in bucket 0 (named `New` resp.
`New Moon`), phase `0.0625` and the phases just above land in bucket 1, and
phase `0.5` lands in bucket 4 (named `Full` resp. `Full Moon`). -/
theorem moon_phase_bucket_index (phase : ℚ) (h0 : 0 ≤ phase) (h1 : phase < 1) :
    phase_index phase = ⌊phase * 8 + 1/2⌋ % 8 ∧
    (phase < 1/16 → phase_index phase = 0 ∧
      moonPhaseName ANCIENT_MOON_PHASE_NAMES phase = some "New" ∧
      moonPhaseName MODERN_MOON_PHASE_NAMES phase = some "New Moon") ∧
    (1/16 ≤ phase → phase < 3/16 → phase_index phase = 1) ∧
    (phase = 1/2 → phase_index phase = 4 ∧
      moonPhaseName ANCIENT_MOON_PHASE_NAMES phase = some "Full" ∧
      moonPhaseName MODERN_MOON_PHASE_NAMES phase = some "Full Moon") := by
  have harg : (0:ℚ) ≤ phase * 8 + 1/2 := by linarith
  have htrunc : phase_index phase = ⌊phase * 8 + 1/2⌋ % 8 := by
    rw [phase_index, pyInt_of_nonneg harg]
  refine ⟨htrunc, ?_, ?_, ?_⟩
  · intro hlt
    have hfl : ⌊phase * 8 + 1/2⌋ = 0 := by
      rw [Int.floor_eq_iff]
      constructor <;> push_cast <;> linarith
    have hidx : phase_index phase = 0 := by rw [htrunc, hfl]; norm_num
    refine ⟨hidx, ?_, ?_⟩ <;> · unfold moonPhaseName; rw [hidx]; rfl
  · intro hge hlt
    have hfl : ⌊phase * 8 + 1/2⌋ = 1 := by
      rw [Int.floor_eq_iff]
      constructor <;> push_cast <;> linarith
    rw [htrunc, hfl]; norm_num
  · intro heq
    subst heq
    have hfl : ⌊(1/2 : ℚ) * 8 + 1/2⌋ = 4 := by
      rw [Int.floor_eq_iff]
      constructor <;> norm_num
    have hidx : phase_index (1/2) = 4 := by rw [htrunc, hfl]; norm_num
    refine ⟨hidx, ?_, ?_⟩ <;> · unfold moonPhaseName; rw [hidx]; rfl

/-- Witness for C1 at the boundary phase `0.0625`: it rounds to bucket 1, and
at phase `0.5` the tables name the bucket `Full` / `Full Moon`. -/
theorem moon_phase_bucket_index_witness :
    phase_index (1/16) = 1 ∧ phase_index (1/2) = 4 ∧
      moonPhaseName ANCIENT_MOON_PHASE_NAMES (1/2) = some "Full" :=
  ⟨(moon_phase_bucket_index (1/16) (by norm_num) (by norm_num)).2.2.1
      (by norm_num) (by norm_num),
   ((moon_phase_bucket_index (1/2) (by norm_num) (by norm_num)).2.2.2 rfl).1,
   ((moon_phase_bucket_index (1/2) (by norm_num) (by norm_num)).2.2.2 rfl).2.1⟩

/-- C7: the lit radius is a triangular wave of the phase: `0` at phase `0`,
linear with slope `2 * moon_radius` on `[0, 1/2]`, equal to the full
`moon_radius` at phase `1/2`, linear back down on `[1/2, 1]`, never above the
maximum, and symmetric around `1/2`. -/
theorem lit_radius_triangular_wave (R : ℚ) (hR : 0 ≤ R) :
    lit_radius 0 R = 0 ∧
    (∀ p : ℚ, 0 ≤ p → p ≤ 1/2 → lit_radius p R = 2 * p * R) ∧
    lit_radius (1/2) R = R ∧
    (∀ p : ℚ, 1/2 ≤ p → p ≤ 1 → lit_radius p R = (2 - 2 * p) * R) ∧
    (∀ p : ℚ, 0 ≤ p → p ≤ 1 → lit_radius p R ≤ R) ∧
    (∀ t : ℚ, 0 ≤ t → t ≤ 1/2 →
      lit_radius (1/2 - t) R = lit_radius (1/2 + t) R) := by
  have hrise : ∀ p : ℚ, 0 ≤ p → p ≤ 1/2 → lit_radius p R = 2 * p * R := by
    intro p _ hle
    unfold lit_radius
    rcases lt_or_ge p (1/2) with hlt | hge
    · rw [if_pos hlt]; ring
    · have hp : p = 1/2 := le_antisymm hle hge
      subst hp
      rw [if_neg (by norm_num)]; ring
  have hfall : ∀ p : ℚ, 1/2 ≤ p → p ≤ 1 → lit_radius p R = (2 - 2 * p) * R := by
    intro p hge _
    unfold lit_radius
    rw [if_neg (not_lt.mpr hge)]; ring
  refine ⟨?_, hrise, ?_, hfall, ?_, ?_⟩
  · rw [hrise 0 le_rfl (by norm_num)]; ring
  · rw [hrise (1/2) (by norm_num) le_rfl]; ring
  · intro p h0 h1
    rcases le_or_lt p (1/2) with hle | hlt
    · rw [hrise p h0 hle]; nlinarith
    · rw [hfall p (le_of_lt hlt) h1]; nlinarith
  · intro t ht0 ht1
    rw [hrise (1/2 - t) (by linarith) (by linarith),
        hfall (1/2 + t) (by linarith) (by linarith)]
    ring

/-- Witness for C7 at the full-moon radius `R = 80` of a 1200-pixel window:
the wave vanishes at phase `0`, peaks at phase `1/2`, and is symmetric at the
pair of phases `1/4` and `3/4`. -/
theorem lit_radius_triangular_wave_witness :
    lit_radius 0 80 = 0 ∧ lit_radius (1/2) (80:ℚ) = 80 ∧
      lit_radius (1/2 - 1/4) 80 = lit_radius (1/2 + 1/4) 80 :=
  ⟨(lit_radius_triangular_wave 80 (by norm_num)).1,
   (lit_radius_triangular_wave 80 (by norm_num)).2.2.1,
   (lit_radius_triangular_wave 80 (by norm_num)).2.2.2.2.2 (1/4)
      (by norm_num) (by norm_num)⟩

/-! ## The ancient simulation state (`ancient_simulation.py`) -/

/-- The seven bodies of `GEOCENTRIC_DATA` in `ancient_config.py`. -/
inductive Body
  | moon
  | sun
  | mercury
  | venus
  | mars
  | jupiter
  | saturn
deriving DecidableEq

/-- The `period` entries of `GEOCENTRIC_DATA` (`ancient_config.py:21-29`),
in days. -/
def Body.period : Body → ℚ
  | .moon => 273/10
  | .sun => 36525/100
  | .mercury => 88
  | .venus => 2247/10
  | .mars => 687
  | .jupiter => 4331
  | .saturn => 10747

/-- The `body_angles` dictionary of `AncientSimulationState`: one angle per
body of `GEOCENTRIC_DATA`, stored as the rational coefficient of pi. -/
structure BodyAngles where
  moon : ℚ
  sun : ℚ
  mercury : ℚ
  venus : ℚ
  mars : ℚ
  jupiter : ℚ
  saturn : ℚ
deriving DecidableEq

/-- Dictionary lookup `body_angles[name]`. -/
def BodyAngles.get (a : BodyAngles) : Body → ℚ
  | .moon => a.moon
  | .sun => a.sun
  | .mercury => a.mercury
  | .venus => a.venus
  | .mars => a.mars
  | .jupiter => a.jupiter
  | .saturn => a.saturn

/-- `angle = (self.current_day / data['period']) * 2 * math.pi`
(`ancient_simulation.py:24`), as the coefficient of pi. -/
def directAngleCoeff (current_day period : ℚ) : ℚ := current_day / period * 2

/-- `_update_body_angles` (`ancient_simulation.py:22-25`): every body's angle
is recomputed in full from the current day counter. -/
def computedAngles (current_day : ℚ) : BodyAngles :=
  ⟨directAngleCoeff current_day Body.moon.period,
   directAngleCoeff current_day Body.sun.period,
   directAngleCoeff current_day Body.mercury.period,
   directAngleCoeff current_day Body.venus.period,
   directAngleCoeff current_day Body.mars.period,
   directAngleCoeff current_day Body.jupiter.period,
   directAngleCoeff current_day Body.saturn.period⟩

/-- The fields of `AncientSimulationState` (`ancient_simulation.py:9-15`). -/
structure AncientState where
  current_day : ℚ
  time_multiplier : ℚ
  paused : Bool
  body_angles : BodyAngles
deriving DecidableEq

/-- `AncientSimulationState.__init__` (`ancient_simulation.py:11-15`): day `0`,
multiplier `1.0`, running, all angles `0`. -/
def AncientState.init : AncientState :=
  { current_day := 0, time_multiplier := 1, paused := false,
    body_angles := ⟨0, 0, 0, 0, 0, 0, 0⟩ }

/-- `AncientSimulationState.update` (`ancient_simulation.py:17-20`): when not
paused, add the multiplier to the day counter and recompute all angles. -/
def AncientState.update (s : AncientState) : AncientState :=
  if s.paused then s
  else
    { s with current_day := s.current_day + s.time_multiplier,
             body_angles := computedAngles (s.current_day + s.time_multiplier) }

/-- `AncientSimulationState.change_speed` (`ancient_simulation.py:27-28`). -/
def AncientState.change_speed (s : AncientState) (factor : ℚ) : AncientState :=
  { s with time_multiplier := s.time_multiplier * factor }

/-- `AncientSimulationState.toggle_pause` (`ancient_simulation.py:30-31`). -/
def AncientState.toggle_pause (s : AncientState) : AncientState :=
  { s with paused := !s.paused }

lemma AncientState.update_of_paused {s : AncientState} (h : s.paused = true) :
    s.update = s := by
  simp [AncientState.update, h]

lemma AncientState.update_day_of_running {s : AncientState}
    (h : s.paused = false) :
    s.update.current_day = s.current_day + s.time_multiplier := by
  simp [AncientState.update, h]

lemma AncientState.update_mult_of_running {s : AncientState}
    (h : s.paused = false) :
    s.update.time_multiplier = s.time_multiplier := by
  simp [AncientState.update, h]

lemma AncientState.update_paused_of_running {s : AncientState}
    (h : s.paused = false) :
    s.update.paused = false := by
  simp [AncientState.update, h]

lemma AncientState.update_angles_of_running {s : AncientState}
    (h : s.paused = false) :
    s.update.body_angles
        = computedAngles (s.current_day + s.time_multiplier) := by
  simp [AncientState.update, h]

/-- Characterisation of `n` iterated `update` calls on a running state: the day
advances by `n` multiplier steps, multiplier and paused flag are untouched, and
(as soon as at least one tick happened) the angles are the recomputed ones. -/
lemma AncientState.update_iterate_running {s : AncientState}
    (h : s.paused = false) (n : ℕ) :
    (AncientState.update^[n] s).current_day
        = s.current_day + n * s.time_multiplier ∧
    (AncientState.update^[n] s).time_multiplier = s.time_multiplier ∧
    (AncientState.update^[n] s).paused = false ∧
    (AncientState.update^[n] s).body_angles
        = if n = 0 then s.body_angles
          else computedAngles (s.current_day + n * s.time_multiplier) := by
  induction n with
  | zero =>
    refine ⟨?_, rfl, h, by norm_num⟩
    show s.current_day = s.current_day + ((0:ℕ) : ℚ) * s.time_multiplier
    push_cast; ring
  | succ n ih =>
    obtain ⟨hd, hm, hp, _⟩ := ih
    rw [Function.iterate_succ_apply']
    refine ⟨?_, ?_, ?_, ?_⟩
    · rw [AncientState.update_day_of_running hp, hd, hm]
      push_cast; ring
    · rw [AncientState.update_mult_of_running hp, hm]
    · exact AncientState.update_paused_of_running hp
    · rw [AncientState.update_angles_of_running hp, hd, hm,
          if_neg (Nat.succ_ne_zero n)]
      congr 1
      push_cast; ring

/-- C5: in the ancient (Direct) variant, after any tick taken while running,
every body's stored angle equals the pure function
`elapsedDays / period * 2` of the new day counter (in units of pi: the code's
`(elapsedDays / periodDays) * 2 * math.pi` radians), recomputed with no
accumulation; the direct formula gives angle `0` at day `0` and a full turn
`2` (that is, `2 * pi` radians) at day `period`, for every body. -/
theorem direct_angles_pure_function (s : AncientState) (b : Body)
    (h : s.paused = false) :
    s.update.body_angles.get b
        = directAngleCoeff s.update.current_day b.period ∧
    directAngleCoeff 0 b.period = 0 ∧
    directAngleCoeff b.period b.period = 2 := by
  refine ⟨?_, ?_, ?_⟩
  · rw [AncientState.update_angles_of_running h,
        AncientState.update_day_of_running h]
    cases b <;> rfl
  · cases b <;> simp [directAngleCoeff]
  · cases b <;> (unfold directAngleCoeff Body.period; norm_num)

/-- Witness for C5: the initial state is running, and one tick from it puts
the Sun's stored angle at the direct formula of the new day counter. -/
theorem direct_angles_pure_function_witness :
    AncientState.init.update.body_angles.get Body.sun
        = directAngleCoeff AncientState.init.update.current_day Body.sun.period ∧
    directAngleCoeff 0 Body.sun.period = 0 ∧
    directAngleCoeff Body.sun.period Body.sun.period = 2 :=
  direct_angles_pure_function AncientState.init Body.sun rfl

/-! ## The modern simulation state (`modern_simulation.py`) -/

/-- The eight planets of `PLANET_VISUAL_DATA` in `modern_config.py`. -/
inductive Planet
  | mercury
  | venus
  | earth
  | mars
  | jupiter
  | saturn
  | uranus
  | neptune
deriving DecidableEq

/-- `ORBITAL_PERIODS` (`modern_config.py:9-18`), in days. -/
def Planet.orbitalPeriod : Planet → ℚ
  | .mercury => 88
  | .venus => 2247/10
  | .earth => 36525/100
  | .mars => 687
  | .jupiter => 4331
  | .saturn => 10747
  | .uranus => 30687
  | .neptune => 60190

/-- The `speed` entries of `PLANET_VISUAL_DATA` (`modern_config.py:20-29`):
`360 / ORBITAL_PERIODS[name]` degrees per simulated day. -/
def Planet.speed (p : Planet) : ℚ := 360 / p.orbitalPeriod

/-- The `planet_angles` dictionary of `SimulationState`: one angle per planet,
stored as the rational coefficient of pi. -/
structure PlanetAngles where
  mercury : ℚ
  venus : ℚ
  earth : ℚ
  mars : ℚ
  jupiter : ℚ
  saturn : ℚ
  uranus : ℚ
  neptune : ℚ
deriving DecidableEq

/-- Dictionary lookup `planet_angles[name]`. -/
def PlanetAngles.get (a : PlanetAngles) : Planet → ℚ
  | .mercury => a.mercury
  | .venus => a.venus
  | .earth => a.earth
  | .mars => a.mars
  | .jupiter => a.jupiter
  | .saturn => a.saturn
  | .uranus => a.uranus
  | .neptune => a.neptune

/-- The per-tick angle increments of `SimulationState.update`
(`modern_simulation.py:36-38`): each planet's angle grows by
`math.radians(speed * time_multiplier * delta_time)`, i.e. its pi coefficient
grows by `speed * md / 180` where `md = time_multiplier * delta_time`. -/
def advanceAngles (a : PlanetAngles) (md : ℚ) : PlanetAngles :=
  ⟨a.mercury + Planet.mercury.speed * md / 180,
   a.venus + Planet.venus.speed * md / 180,
   a.earth + Planet.earth.speed * md / 180,
   a.mars + Planet.mars.speed * md / 180,
   a.jupiter + Planet.jupiter.speed * md / 180,
   a.saturn + Planet.saturn.speed * md / 180,
   a.uranus + Planet.uranus.speed * md / 180,
   a.neptune + Planet.neptune.speed * md / 180⟩

/-- The fields of `SimulationState` (`modern_simulation.py:14-20`).
`current_date` is the `datetime` value measured in days relative to a fixed
epoch; `current_date += timedelta(days = x)` is embedded as adding `x`. -/
structure ModernState where
  current_date : ℚ
  time_multiplier : ℚ
  paused : Bool
  planet_angles : PlanetAngles
deriving DecidableEq

/-- `SimulationState.update` (`modern_simulation.py:32-38`): when not paused,
advance the date by `time_multiplier * delta_time` days and accumulate every
planet's angle increment. -/
def ModernState.update (m : ModernState) (delta_time : ℚ) : ModernState :=
  if m.paused then m
  else
    { m with
      current_date := m.current_date + m.time_multiplier * delta_time,
      planet_angles :=
        advanceAngles m.planet_angles (m.time_multiplier * delta_time) }

/-- The SPACE-key handler (`modern_simulation.py:70-71`):
`paused = not paused`. -/
def ModernState.toggle_pause (m : ModernState) : ModernState :=
  { m with paused := !m.paused }

/-- The UP-key handler (`modern_simulation.py:66-67`):
`time_multiplier *= 1.5`. -/
def ModernState.increase_speed (m : ModernState) : ModernState :=
  { m with time_multiplier := m.time_multiplier * (3/2) }

/-- The DOWN-key handler (`modern_simulation.py:68-69`):
`time_multiplier /= 1.5`. -/
def ModernState.decrease_speed (m : ModernState) : ModernState :=
  { m with time_multiplier := m.time_multiplier / (3/2) }

/-- Replaying a list of `delta_time` values through `SimulationState.update`,
in order. -/
def ModernState.replay (m : ModernState) (deltas : List ℚ) : ModernState :=
  deltas.foldl ModernState.update m

lemma ModernState.update_noop_of_paused {m : ModernState} (h : m.paused = true)
    (delta_time : ℚ) : m.update delta_time = m := by
  simp [ModernState.update, h]

lemma AncientState.update_iterate_of_paused {s : AncientState}
    (h : s.paused = true) (n : ℕ) : AncientState.update^[n] s = s := by
  induction n with
  | zero => rfl
  | succ n ih =>
    rw [Function.iterate_succ_apply', ih, AncientState.update_of_paused h]

lemma ModernState.update_iterate_noop_of_paused {m : ModernState}
    (h : m.paused = true) (delta_time : ℚ) (n : ℕ) :
    (fun st : ModernState => st.update delta_time)^[n] m = m := by
  induction n with
  | zero => rfl
  | succ n ih =>
    rw [Function.iterate_succ_apply', ih]
    exact ModernState.update_noop_of_paused h delta_time

/-- C2: a tick on a paused clock leaves the whole state unchanged (elapsed
days or date, multiplier and every body angle), in both variants and for
every tick delta; and the scenario pause, ten `tick(1.0)` calls, unpause
returns the exact starting state, so the clock resumes advancing
identically afterward. -/
theorem tick_noop_when_paused :
    (∀ s : AncientState, s.paused = true → s.update = s) ∧
    (∀ (m : ModernState) (delta_time : ℚ), m.paused = true →
      m.update delta_time = m) ∧
    (∀ s : AncientState, s.paused = false →
      (AncientState.update^[10] s.toggle_pause).toggle_pause = s) ∧
    (∀ m : ModernState, m.paused = false →
      ((fun st : ModernState => st.update 1)^[10] m.toggle_pause).toggle_pause
        = m) := by
  refine ⟨fun s h => AncientState.update_of_paused h,
          fun m d h => ModernState.update_noop_of_paused h d, ?_, ?_⟩
  · intro s h
    obtain ⟨d, mult, p, a⟩ := s
    cases p
    · show (AncientState.update^[10] (AncientState.mk d mult true a)).toggle_pause
          = AncientState.mk d mult false a
      rw [AncientState.update_iterate_of_paused (s := ⟨d, mult, true, a⟩) rfl]
      rfl
    · simp at h
  · intro m h
    obtain ⟨d, mult, p, a⟩ := m
    cases p
    · show ((fun st : ModernState => st.update 1)^[10]
            (ModernState.mk d mult true a)).toggle_pause
          = ModernState.mk d mult false a
      rw [ModernState.update_iterate_noop_of_paused (m := ⟨d, mult, true, a⟩) rfl]
      rfl
    · simp at h

/-- Witness for C2: a concrete paused state is left untouched by a tick, and
the pause / ten-ticks / unpause scenario from the ancient initial state ends
exactly at the initial state. -/
theorem tick_noop_when_paused_witness :
    (AncientState.mk 5 2 true ⟨1, 2, 3, 4, 5, 6, 7⟩).update
        = AncientState.mk 5 2 true ⟨1, 2, 3, 4, 5, 6, 7⟩ ∧
    (AncientState.update^[10] AncientState.init.toggle_pause).toggle_pause
        = AncientState.init ∧
    ((fun st : ModernState => st.update 1)^[10]
        (ModernState.mk 0 1 false ⟨0, 0, 0, 0, 0, 0, 0, 0⟩).toggle_pause).toggle_pause
      = ModernState.mk 0 1 false ⟨0, 0, 0, 0, 0, 0, 0, 0⟩ :=
  ⟨tick_noop_when_paused.1 _ rfl,
   tick_noop_when_paused.2.2.1 AncientState.init rfl,
   tick_noop_when_paused.2.2.2 _ rfl⟩

/-- C6: the tick operation is deterministic in both variants — as a step
relation it is right-unique, so two `tick(1.0)` calls from one and the same
clock state produce one and the same resulting state — and replaying the same
`delta_time` sequence from the same initial state reproduces the same final
angle for every planet (exactly, in the rational embedding). -/
theorem tick_deterministic :
    (∀ s s1 s2 : AncientState, s.update = s1 → s.update = s2 → s1 = s2) ∧
    (∀ (m m1 m2 : ModernState) (delta_time : ℚ),
      m.update delta_time = m1 → m.update delta_time = m2 → m1 = m2) ∧
    (∀ (m m' : ModernState) (deltas : List ℚ) (p : Planet), m = m' →
      (m.replay deltas).planet_angles.get p
        = (m'.replay deltas).planet_angles.get p) := by
  refine ⟨?_, ?_, ?_⟩
  · intro s s1 s2 h1 h2
    rw [← h1, ← h2]
  · intro m m1 m2 d h1 h2
    rw [← h1, ← h2]
  · intro m m' ds p h
    rw [h]

/-- Witness for C6: both tick relations applied twice at a concrete state, and
a concrete replay of the delta sequence `[1, 1/2, 1]` reproducing Earth's
final angle. -/
theorem tick_deterministic_witness :
    AncientState.init.update = AncientState.init.update ∧
    ((ModernState.mk 0 1 false ⟨0, 0, 0, 0, 0, 0, 0, 0⟩).replay
        [1, 1/2, 1]).planet_angles.get Planet.earth
      = ((ModernState.mk 0 1 false ⟨0, 0, 0, 0, 0, 0, 0, 0⟩).replay
        [1, 1/2, 1]).planet_angles.get Planet.earth :=
  ⟨tick_deterministic.1 AncientState.init _ _ rfl rfl,
   tick_deterministic.2.2 _ _ [1, 1/2, 1] Planet.earth rfl⟩

/-- C9: increasing the speed by factor 1.5 and then applying factor `1/1.5`
restores the multiplier exactly (and hence within any floating-point
tolerance), and a speed change never touches the day counter / date, the
paused flag or any angle, in either variant. -/
theorem speed_change_roundtrip :
    (∀ s : AncientState, (s.change_speed (3/2)).change_speed (1/(3/2)) = s) ∧
    (∀ (s : AncientState) (factor : ℚ),
      (s.change_speed factor).current_day = s.current_day ∧
      (s.change_speed factor).paused = s.paused ∧
      (s.change_speed factor).body_angles = s.body_angles) ∧
    (∀ m : ModernState, m.increase_speed.decrease_speed = m) ∧
    (∀ m : ModernState,
      (m.increase_speed.current_date = m.current_date ∧
       m.increase_speed.paused = m.paused ∧
       m.increase_speed.planet_angles = m.planet_angles) ∧
      (m.decrease_speed.current_date = m.current_date ∧
       m.decrease_speed.paused = m.paused ∧
       m.decrease_speed.planet_angles = m.planet_angles)) := by
  refine ⟨?_, ?_, ?_, ?_⟩
  · intro s
    obtain ⟨d, mult, p, a⟩ := s
    simp [AncientState.change_speed]
    ring
  · intro s factor
    exact ⟨rfl, rfl, rfl⟩
  · intro m
    obtain ⟨d, mult, p, a⟩ := m
    simp [ModernState.increase_speed, ModernState.decrease_speed]
  · intro m
    exact ⟨⟨rfl, rfl, rfl⟩, ⟨rfl, rfl, rfl⟩⟩

/-! ## Error behaviour of the cycle math -/

/-- The error kinds the cycle math can produce.  The arithmetic of
`_update_body_angles` (`ancient_simulation.py:22-25`) and of the dial math
(`ancient_back_face.py:70-76`) can only fail by dividing (or taking `%`) by a
zero period, Python's `ZeroDivisionError`; the embedding records that single
failure kind as the spec's `InvalidParameter`. -/
inductive CycleError
  | invalidParameter
deriving DecidableEq

/-- Fallible cycle progress: `current_day % P / P` raises iff `P == 0`,
otherwise it returns the value computed by `progress`. -/
def progressE (elapsedDays periodDays : ℚ) : Except CycleError ℚ :=
  if periodDays = 0 then .error .invalidParameter
  else .ok (progress elapsedDays periodDays)

/-- Fallible direct angle: `(current_day / period) * 2 * math.pi`
(`ancient_simulation.py:24`) raises iff `period == 0`. -/
def directAngleCoeffE (current_day period : ℚ) : Except CycleError ℚ :=
  if period = 0 then .error .invalidParameter
  else .ok (directAngleCoeff current_day period)

/-- C3: for every elapsed-day value, the cycle math given a zero period fails
fast with the `InvalidParameter` error kind — both for the dial progress and
for the direct body angle — and `InvalidParameter` is the only error kind the
cycle math can ever produce. -/
theorem zero_period_invalid_parameter (e : ℚ) :
    progressE e 0 = .error .invalidParameter ∧
    directAngleCoeffE e 0 = .error .invalidParameter ∧
    (∀ (p : ℚ) (err : CycleError), progressE e p = .error err →
      err = .invalidParameter) ∧
    (∀ (p : ℚ) (err : CycleError), directAngleCoeffE e p = .error err →
      err = .invalidParameter) := by
  refine ⟨by simp [progressE], by simp [directAngleCoeffE], ?_, ?_⟩
  · intro p err _
    cases err
    rfl
  · intro p err _
    cases err
    rfl

/-- Witness for C3 at `elapsedDays = 1`: a zero period yields the
`InvalidParameter` error, and the error produced there is (as always) of the
`InvalidParameter` kind. -/
theorem zero_period_invalid_parameter_witness :
    progressE 1 0 = .error .invalidParameter ∧
    CycleError.invalidParameter = CycleError.invalidParameter :=
  ⟨(zero_period_invalid_parameter 1).1,
   (zero_period_invalid_parameter 1).2.2.1 0 .invalidParameter
     (zero_period_invalid_parameter 1).1⟩

/-! ## The Metonic dial (`ancient_back_face.py:30-81`) -/

/-- `synodic_month_days = 29.530589` (`ancient_back_face.py:71`). -/
def synodic_month_days : ℚ := 29530589/1000000

/-- `current_month = (current_day / synodic_month_days) % total_months` with
`total_months = 235` (`ancient_back_face.py:33,72`). -/
def metonic_current_month (current_day : ℚ) : ℚ :=
  pyMod (current_day / synodic_month_days) 235

/-- `pointer_t = current_month / total_months` (`ancient_back_face.py:75`):
the Metonic pointer's progress through the 235-month cycle. -/
def metonic_progress (current_day : ℚ) : ℚ :=
  metonic_current_month current_day / 235

/-- The index within the cycle: the whole-month part of the pointer's month
position `(current_day / synodic_month_days) % 235`. -/
def metonic_index (current_day : ℚ) : ℤ :=
  ⌊metonic_current_month current_day⌋

/-- C8: from the initial clock state (day `0`, multiplier `1.0`, running),
after `6940` calls of `tick(1.0)` the elapsed days equal `6940`, which is the
first tick count approximately equal (within half a day) to one full Metonic
cycle `235 * 29.530589 ≈ 6939.69`; there the Metonic dial progress is
approximately `0` (below `1/10000`) and the month index within the cycle is
exactly `0`. -/
theorem metonic_cycle_end_to_end :
    (AncientState.update^[6940] AncientState.init).current_day = 6940 ∧
    |(AncientState.update^[6940] AncientState.init).current_day
        - 235 * synodic_month_days| < 1/2 ∧
    0 ≤ metonic_progress
        (AncientState.update^[6940] AncientState.init).current_day ∧
    metonic_progress
        (AncientState.update^[6940] AncientState.init).current_day < 1/10000 ∧
    metonic_index
        (AncientState.update^[6940] AncientState.init).current_day = 0 := by
  have hday : (AncientState.update^[6940] AncientState.init).current_day
      = 6940 := by
    have h := (AncientState.update_iterate_running
      (s := AncientState.init) rfl 6940).1
    rw [h]
    norm_num [AncientState.init]
  have hfl : ⌊(6940 : ℚ) / synodic_month_days / 235⌋ = 1 := by
    rw [Int.floor_eq_iff]
    constructor <;> norm_num [synodic_month_days]
  have hcm : metonic_current_month 6940 = 311585/29530589 := by
    unfold metonic_current_month pyMod
    rw [hfl]
    norm_num [synodic_month_days]
  refine ⟨hday, ?_, ?_, ?_, ?_⟩
  · rw [hday, abs_lt]
    constructor <;> norm_num [synodic_month_days]
  · rw [hday]
    unfold metonic_progress
    rw [hcm]
    norm_num
  · rw [hday]
    unfold metonic_progress
    rw [hcm]
    norm_num
  · rw [hday]
    unfold metonic_index
    rw [hcm, Int.floor_eq_iff]
    constructor <;> norm_num

/-! ## The recorders (`ancient_recorder.py`, `modern_recorder.py`) -/

lemma ModernState.update_date_of_running {m : ModernState}
    (h : m.paused = false) (delta_time : ℚ) :
    (m.update delta_time).current_date
        = m.current_date + m.time_multiplier * delta_time := by
  simp [ModernState.update, h]

lemma ModernState.update_multiplier_of_running {m : ModernState}
    (h : m.paused = false) (delta_time : ℚ) :
    (m.update delta_time).time_multiplier = m.time_multiplier := by
  simp [ModernState.update, h]

lemma ModernState.update_stays_running {m : ModernState}
    (h : m.paused = false) (delta_time : ℚ) :
    (m.update delta_time).paused = false := by
  simp [ModernState.update, h]

lemma ModernState.update_planet_angles_of_running {m : ModernState}
    (h : m.paused = false) (delta_time : ℚ) (p : Planet) :
    (m.update delta_time).planet_angles.get p
        = m.planet_angles.get p
          + p.speed * (m.time_multiplier * delta_time) / 180 := by
  rw [show (m.update delta_time).planet_angles
      = advanceAngles m.planet_angles (m.time_multiplier * delta_time) from by
    simp [ModernState.update, h]]
  cases p <;> rfl

/-- Characterisation of replaying a delta list on a running modern state: the
date advances by the multiplier times the total delta, multiplier and paused
flag are untouched, and every planet's angle accumulates its increment. -/
lemma ModernState.replay_running {m : ModernState} (h : m.paused = false)
    (ds : List ℚ) :
    (m.replay ds).current_date
        = m.current_date + m.time_multiplier * ds.sum ∧
    (m.replay ds).time_multiplier = m.time_multiplier ∧
    (m.replay ds).paused = false ∧
    (∀ p : Planet, (m.replay ds).planet_angles.get p
        = m.planet_angles.get p
          + p.speed * (m.time_multiplier * ds.sum) / 180) := by
  induction ds generalizing m with
  | nil =>
    refine ⟨by simp [ModernState.replay], rfl, h, fun p => by
      simp [ModernState.replay]⟩
  | cons d ds ih =>
    have hrw : m.replay (d :: ds) = (m.update d).replay ds := rfl
    have hp := ModernState.update_stays_running h d
    obtain ⟨ihd, ihm, ihp, iha⟩ := ih hp
    rw [hrw]
    refine ⟨?_, ?_, ihp, ?_⟩
    · rw [ihd, ModernState.update_date_of_running h d,
          ModernState.update_multiplier_of_running h d, List.sum_cons]
      ring
    · rw [ihm, ModernState.update_multiplier_of_running h d]
    · intro p
      rw [iha p, ModernState.update_planet_angles_of_running h d p,
          ModernState.update_multiplier_of_running h d, List.sum_cons]
      ring

/-- The application state the ancient recorder touches: the simulation state
and `current_view` (`ancient_simulation.py:33-44`); caption changes are
external window I/O. -/
structure AncientApp where
  state : AncientState
  current_view : String
deriving DecidableEq

/-- `AncientSimulationRecorder` (`ancient_recorder.py:12-21`): the wrapped app
and the `recording` flag (the frame buffer and video writer are external
I/O). -/
structure AncientRecorder where
  app : AncientApp
  recording : Bool
deriving DecidableEq

/-- `AncientSimulationRecorder.start_recording` (`ancient_recorder.py:23-84`):
return unchanged if already recording; otherwise save the current view, speed
and paused flag, install the requested view and speed with the pause forced
off, run `frames_to_record` calls of `state.update()` (frame capture is
external I/O), then restore the saved view, speed and paused flag and clear
`recording`. -/
def ancient_start_recording (r : AncientRecorder) (view : String)
    (speed_multiplier : ℚ) (frames_to_record : ℕ) : AncientRecorder :=
  if r.recording then r
  else
    let original_view := r.app.current_view
    let original_speed := r.app.state.time_multiplier
    let original_paused := r.app.state.paused
    let recording_state : AncientState :=
      { r.app.state with time_multiplier := speed_multiplier, paused := false }
    let ticked := AncientState.update^[frames_to_record] recording_state
    let restored : AncientState :=
      { ticked with time_multiplier := original_speed,
                    paused := original_paused }
    { app := { state := restored, current_view := original_view },
      recording := false }

/-- The application state the modern recorder touches
(`modern_simulation.py:40-53`). -/
structure ModernApp where
  simulation_state : ModernState
  current_view : String
deriving DecidableEq

/-- `SimulationRecorder` (`modern_recorder.py:12-21`). -/
structure ModernRecorder where
  app : ModernApp
  recording : Bool
deriving DecidableEq

/-- `SimulationRecorder.start_recording` (`modern_recorder.py:23-94`), with
the wall-clock-derived `delta_time` of each recorded frame passed in as a
list: save view, speed and paused flag, install the requested view and speed
with the pause forced off, run one `update(delta_time)` per frame, then
restore view, speed and paused flag and clear `recording`. -/
def modern_start_recording (r : ModernRecorder) (view : String)
    (speed_multiplier : ℚ) (deltas : List ℚ) : ModernRecorder :=
  if r.recording then r
  else
    let original_view := r.app.current_view
    let original_speed := r.app.simulation_state.time_multiplier
    let original_paused := r.app.simulation_state.paused
    let recording_state : ModernState :=
      { r.app.simulation_state with
        time_multiplier := speed_multiplier, paused := false }
    let ticked := recording_state.replay deltas
    let restored : ModernState :=
      { ticked with time_multiplier := original_speed,
                    paused := original_paused }
    { app := { simulation_state := restored, current_view := original_view },
      recording := false }

/-- C10: whenever `start_recording` returns, the current view, the time
multiplier and the paused flag equal their values from before the call, for
both variants; but on the normal path (`recording` initially off) the
simulation's elapsed time and body angles are not restored: the day counter
remains advanced by `frames * speed` days (ancient) resp. the date by
`speed * sum deltas` days (modern), and every body angle remains advanced —
in the ancient variant each stored angle is the direct formula of the
advanced day counter, in the modern variant each planet angle keeps its
accumulated recording increments. -/
theorem start_recording_restores_controls_not_time :
    (∀ (r : AncientRecorder) (view : String) (speed : ℚ) (frames : ℕ),
      (ancient_start_recording r view speed frames).app.current_view
          = r.app.current_view ∧
      (ancient_start_recording r view speed frames).app.state.time_multiplier
          = r.app.state.time_multiplier ∧
      (ancient_start_recording r view speed frames).app.state.paused
          = r.app.state.paused) ∧
    (∀ (r : AncientRecorder) (view : String) (speed : ℚ) (frames : ℕ),
      r.recording = false →
      (ancient_start_recording r view speed frames).app.state.current_day
          = r.app.state.current_day + (frames : ℚ) * speed ∧
      (frames ≠ 0 → ∀ b : Body,
        (ancient_start_recording r view speed frames).app.state.body_angles.get b
          = directAngleCoeff (r.app.state.current_day + (frames : ℚ) * speed)
              b.period)) ∧
    (∀ (r : ModernRecorder) (view : String) (speed : ℚ) (deltas : List ℚ),
      (modern_start_recording r view speed deltas).app.current_view
          = r.app.current_view ∧
      (modern_start_recording r view speed deltas).app.simulation_state.time_multiplier
          = r.app.simulation_state.time_multiplier ∧
      (modern_start_recording r view speed deltas).app.simulation_state.paused
          = r.app.simulation_state.paused) ∧
    (∀ (r : ModernRecorder) (view : String) (speed : ℚ) (deltas : List ℚ),
      r.recording = false →
      (modern_start_recording r view speed deltas).app.simulation_state.current_date
          = r.app.simulation_state.current_date + speed * deltas.sum ∧
      (∀ p : Planet,
        (modern_start_recording r view speed deltas).app.simulation_state.planet_angles.get p
          = r.app.simulation_state.planet_angles.get p
            + p.speed * (speed * deltas.sum) / 180)) := by
  refine ⟨?_, ?_, ?_, ?_⟩
  · intro r view speed frames
    by_cases hrec : r.recording <;>
      simp [ancient_start_recording, hrec]
  · intro r view speed frames hrec
    have h0 : ({ r.app.state with
        time_multiplier := speed, paused := false } : AncientState).paused
          = false := rfl
    have hd := (AncientState.update_iterate_running h0 frames).1
    have ha := (AncientState.update_iterate_running h0 frames).2.2.2
    simp only [ancient_start_recording, hrec, if_false]
    refine ⟨hd, ?_⟩
    intro hfr b
    rw [ha, if_neg hfr]
    cases b <;> rfl
  · intro r view speed deltas
    by_cases hrec : r.recording <;>
      simp [modern_start_recording, hrec]
  · intro r view speed deltas hrec
    have h0 : ({ r.app.simulation_state with
        time_multiplier := speed, paused := false } : ModernState).paused
          = false := rfl
    obtain ⟨hd, _, _, ha⟩ := ModernState.replay_running h0 deltas
    simp only [modern_start_recording, hrec, if_false]
    exact ⟨hd, ha⟩

/-- Witness for C10: a concrete not-yet-recording ancient recorder at day `3`,
speed `7`, paused, front view: recording 5 frames at speed `2` restores the
paused flag and multiplier but leaves the day advanced to `3 + 5 * 2` and the
Moon's angle at the direct formula of that advanced day. -/
theorem start_recording_restores_controls_not_time_witness :
    (ancient_start_recording
        ⟨⟨⟨3, 7, true, ⟨0, 0, 0, 0, 0, 0, 0⟩⟩, "front"⟩, false⟩
        "back" 2 5).app.state.time_multiplier
      = (AncientRecorder.mk
          ⟨⟨3, 7, true, ⟨0, 0, 0, 0, 0, 0, 0⟩⟩, "front"⟩
          false).app.state.time_multiplier ∧
    (ancient_start_recording
        ⟨⟨⟨3, 7, true, ⟨0, 0, 0, 0, 0, 0, 0⟩⟩, "front"⟩, false⟩
        "back" 2 5).app.state.current_day
      = (AncientRecorder.mk
          ⟨⟨3, 7, true, ⟨0, 0, 0, 0, 0, 0, 0⟩⟩, "front"⟩
          false).app.state.current_day + ((5 : ℕ) : ℚ) * 2 ∧
    (ancient_start_recording
        ⟨⟨⟨3, 7, true, ⟨0, 0, 0, 0, 0, 0, 0⟩⟩, "front"⟩, false⟩
        "back" 2 5).app.state.body_angles.get Body.moon
      = directAngleCoeff
          ((AncientRecorder.mk
            ⟨⟨3, 7, true, ⟨0, 0, 0, 0, 0, 0, 0⟩⟩, "front"⟩
            false).app.state.current_day + ((5 : ℕ) : ℚ) * 2)
          Body.moon.period :=
  ⟨(start_recording_restores_controls_not_time.1 _ "back" 2 5).2.1,
   (start_recording_restores_controls_not_time.2.1 _ "back" 2 5 rfl).1,
   (start_recording_restores_controls_not_time.2.1 _ "back" 2 5 rfl).2
     (by norm_num) Body.moon⟩

end Antikythera
